import Mathlib

/-!
Verification of the student travel planner core against its source:
the schema definitions, prompt builder and generation client of
`ai_planner.py`, and the session controller and map renderer of `app.py`.
JSON numbers are modelled as exact rationals; the generative backend is
modelled as an abstract outcome supplied to the client.
-/

namespace TravelPlanner

/-- JSON values; numbers are exact rationals. -/
inductive Json where
  | null
  | bool (b : Bool)
  | num (q : ℚ)
  | str (s : String)
  | arr (items : List Json)
  | obj (fields : List (String × Json))

/-- `Activity` (pydantic model), `ai_planner.py` lines 7-13. -/
structure Activity where
  name : String
  time : String
  description : String
  cost_estimate : String
  latitude : ℚ
  longitude : ℚ
deriving DecidableEq

/-- `DailyPlan` (pydantic model), `ai_planner.py` lines 15-18. -/
structure DailyPlan where
  day : Int
  theme : String
  activities : List Activity
deriving DecidableEq

/-- `TripItinerary` (pydantic model), `ai_planner.py` lines 20-24. -/
structure TripItinerary where
  destination : String
  total_estimated_cost : String
  budget_tips : List String
  itinerary : List DailyPlan
deriving DecidableEq

/-- Field lookup in a JSON object (first binding wins), as pydantic reads
a named field from a parsed JSON object. -/
def Json.getField : Json → String → Option Json
  | .obj fields, key => fields.lookup key
  | _, _ => none

/-- Accept exactly a JSON string. -/
def Json.asStr : Json → Option String
  | .str s => some s
  | _ => none

/-- Accept exactly a JSON number (for the float fields of `Activity`). -/
def Json.asNum : Json → Option ℚ
  | .num q => some q
  | _ => none

/-- Accept a JSON number denoting an integer (for the int field `day`). -/
def Json.asInt : Json → Option Int
  | .num q => if q.den = 1 then some q.num else none
  | _ => none

/-- Accept exactly a JSON array. -/
def Json.asArr : Json → Option (List Json)
  | .arr items => some items
  | _ => none

/-- Decode every element of a list, failing if any element fails. -/
def mapOpt (f : Json → Option α) : List Json → Option (List α)
  | [] => some []
  | j :: js =>
    match f j with
    | none => none
    | some a =>
      match mapOpt f js with
      | none => none
      | some rest => some (a :: rest)

/-- Modelled from the spec: the wire JSON form of an `Activity` (the
repository declares the pydantic schema but leaves serialisation to the
pydantic library: one JSON object field per declared model field). -/
def Activity.toJson (a : Activity) : Json :=
  .obj [("name", .str a.name), ("time", .str a.time),
        ("description", .str a.description),
        ("cost_estimate", .str a.cost_estimate),
        ("latitude", .num a.latitude), ("longitude", .num a.longitude)]

/-- Modelled from the spec: the wire JSON form of a `DailyPlan`. -/
def DailyPlan.toJson (p : DailyPlan) : Json :=
  .obj [("day", .num (p.day : ℚ)), ("theme", .str p.theme),
        ("activities", .arr (p.activities.map Activity.toJson))]

/-- Modelled from the spec: the wire JSON form of a `TripItinerary`. -/
def TripItinerary.toJson (t : TripItinerary) : Json :=
  .obj [("destination", .str t.destination),
        ("total_estimated_cost", .str t.total_estimated_cost),
        ("budget_tips", .arr (t.budget_tips.map Json.str)),
        ("itinerary", .arr (t.itinerary.map DailyPlan.toJson))]

/-- Modelled from the spec: structural validation of a JSON value as an
`Activity` — a missing required field or a wrong primitive kind (for
example a string latitude) is rejected. -/
def decodeActivity (j : Json) : Option Activity :=
  match (j.getField "name").bind Json.asStr,
        (j.getField "time").bind Json.asStr,
        (j.getField "description").bind Json.asStr,
        (j.getField "cost_estimate").bind Json.asStr,
        (j.getField "latitude").bind Json.asNum,
        (j.getField "longitude").bind Json.asNum with
  | some n, some t, some d, some c, some la, some lo =>
    some { name := n, time := t, description := d, cost_estimate := c,
           latitude := la, longitude := lo }
  | _, _, _, _, _, _ => none

/-- Modelled from the spec: structural validation of a JSON value as a
`DailyPlan`; any invalid activity rejects the whole plan. -/
def decodeDailyPlan (j : Json) : Option DailyPlan :=
  match (j.getField "day").bind Json.asInt,
        (j.getField "theme").bind Json.asStr,
        ((j.getField "activities").bind Json.asArr).bind (mapOpt decodeActivity) with
  | some d, some t, some acts => some { day := d, theme := t, activities := acts }
  | _, _, _ => none

/-- Modelled from the spec: structural validation of a parsed JSON value
against the `TripItinerary` schema — the validation step the spec assigns
to the Generation Client. Rejects a payload missing `budget_tips` or any
payload whose nested structure is malformed. -/
def validateTripItinerary (j : Json) : Option TripItinerary :=
  match (j.getField "destination").bind Json.asStr,
        (j.getField "total_estimated_cost").bind Json.asStr,
        ((j.getField "budget_tips").bind Json.asArr).bind (mapOpt Json.asStr),
        ((j.getField "itinerary").bind Json.asArr).bind (mapOpt decodeDailyPlan) with
  | some d, some c, some tips, some plans =>
    some { destination := d, total_estimated_cost := c,
           budget_tips := tips, itinerary := plans }
  | _, _, _, _ => none

/-- Python `", ".join(strs)`. -/
def joinComma : List String → String
  | [] => ""
  | [s] => s
  | s :: rest => s ++ ", " ++ joinComma rest

/-- `interests_str`, `ai_planner.py` line 36: the joined interests, or the
default placeholder when the list is empty (falsy). -/
def interestsStr (interests : List String) : String :=
  if interests = [] then "General sightseeing" else joinComma interests

/-- `notes_str`, `ai_planner.py` line 37: empty notes contribute nothing. -/
def notesStr (notes : String) : String :=
  if notes = "" then "" else "\nAdditional Notes: " ++ notes

/-- Fixed prompt text before the day count. -/
def promptPart1 : String :=
  "\n    You are an expert travel planner specializing in budget travel for college students.\n    Create a detailed "

/-- Fixed prompt text between the day count and the destination. -/
def promptPart2 : String := "-day itinerary for "

/-- Fixed prompt text between the destination and the budget level. -/
def promptPart3 : String :=
  ".\n    \n    Constraints & Preferences:\n    - Budget Level: "

/-- Fixed prompt text between the budget level and the interests. -/
def promptPart4 : String :=
  ". Prioritize free activities, student discounts, street food, and cheap transport.\n    - Interests: "

/-- Fixed prompt text after the interests and notes. -/
def promptPart5 : String :=
  "\n    \n    For every activity, you must provide realistic latitude and longitude coordinates. \n    Ensure locations for a single day are geographically close to minimize transit time and costs.\n    "

/-- The prompt f-string of `generate_itinerary`, `ai_planner.py` lines
39-49, as the concatenation of its fixed parts and interpolated inputs. -/
def buildPrompt (days : Nat) (destination budget : String)
    (interests : List String) (notes : String) : String :=
  promptPart1 ++ toString days ++ promptPart2 ++ destination ++ promptPart3
    ++ budget ++ promptPart4 ++ interestsStr interests ++ "." ++ notesStr notes
    ++ promptPart5

/-- The observable outcome of the backend interaction inside the `try`
block of `generate_itinerary` (`ai_planner.py` lines 53-64): the
`generate_content` call raises `InvalidArgument`, raises some other
exception, or returns text, in which case `json.loads` either raises (an
ordinary exception carrying the parse error message) or yields a value. -/
inductive BackendOutcome where
  | invalidArgument (msg : String)
  | otherExc (msg : String)
  | returnsText (parsed : Except String Json)

/-- The dictionary returned by `generate_itinerary`: a `status` tag plus
the optional `data` and `message` entries. -/
structure PyResult where
  status : String
  data : Option Json := none
  message : Option String := none

/-- `generate_itinerary`, `ai_planner.py` lines 26-71, with the backend
call abstracted by a `BackendOutcome`. The prompt sent to the backend is
`buildPrompt days destination budget interests notes`; the parsed JSON is
returned as success data without local schema validation, and the two
`except` clauses produce the two error results. -/
def generate_itinerary (api_key : String) (days : Nat)
    (destination budget : String) (interests : List String) (notes : String)
    (outcome : BackendOutcome) : PyResult :=
  match outcome with
  | .returnsText (.ok j) => { status := "success", data := some j }
  | .returnsText (.error e) => { status := "error", message := some e }
  | .invalidArgument _ =>
    { status := "error",
      message := some "Invalid API Key provided. Please check your Gemini API key." }
  | .otherExc e => { status := "error", message := some e }

/-- The marker color palette, `app.py` line 150 (19 entries). -/
def colors : List String :=
  ["red", "blue", "green", "purple", "orange", "darkred", "lightred",
   "beige", "darkblue", "darkgreen", "cadetblue", "darkpurple", "white",
   "pink", "lightblue", "lightgreen", "gray", "black", "lightgray"]

/-- `palette[(day - 1) % len(palette)]`, the indexing expression of
`app.py` line 154 for an arbitrary palette (Python `%` on a positive
modulus is the Euclidean remainder, as is Lean's `Int.emod`). -/
def pickColor (palette : List String) (d : Int) : String :=
  palette.getD ((d - 1) % (palette.length : Int)).toNat ""

/-- `day_color`, `app.py` line 154: the palette entry for day `d`. -/
def dayColor (d : Int) : String := pickColor colors d

/-- One folium marker: location, popup HTML, tooltip, icon color
(`app.py` lines 156-161). -/
structure Marker where
  location : ℚ × ℚ
  popup : String
  tooltip : String
  color : String
deriving DecidableEq

/-- The map produced by `app.py` lines 146-165: initial location
(`all_coords[0]`), zoom, the markers of every day, and the bounds fitted
to every coordinate. -/
structure MapView where
  location : ℚ × ℚ
  zoomStart : Nat
  markers : List Marker
  bounds : List (ℚ × ℚ)
deriving DecidableEq

/-- `all_coords`, `app.py` lines 141-144: every activity coordinate pair,
in day order then activity order. -/
def allCoords (plans : List DailyPlan) : List (ℚ × ℚ) :=
  plans.flatMap fun day => day.activities.map fun act => (act.latitude, act.longitude)

/-- The markers of one day, `app.py` lines 153-161. -/
def dayMarkers (day : DailyPlan) : List Marker :=
  day.activities.map fun act =>
    { location := (act.latitude, act.longitude),
      popup := "<b>" ++ act.name ++ "</b><br>Day " ++ toString day.day ++ ": "
        ++ act.time ++ "<br>Cost: " ++ act.cost_estimate,
      tooltip := "Day " ++ toString day.day ++ ": " ++ act.name,
      color := dayColor day.day }

/-- The map rendering of `app.py` lines 141-167: `none` is the empty
signal (the `st.info` branch when `all_coords` is empty), otherwise the
map centered on the first collected coordinate with all markers and
bounds. -/
def compute_map_view (it : TripItinerary) : Option MapView :=
  match allCoords it.itinerary with
  | [] => none
  | c :: rest =>
    some { location := c, zoomStart := 12,
           markers := it.itinerary.flatMap dayMarkers,
           bounds := c :: rest }

/-- The two-field session slot of `app.py` lines 86-89:
`st.session_state.itinerary_data` and `st.session_state.error_message`. -/
structure SessionState where
  itinerary_data : Option Json
  error_message : Option String

/-- `not api_key or api_key == "your_api_key_here"`, `app.py` line 96
(`None` and the empty string are falsy). -/
def apiKeyMissing : Option String → Bool
  | none => true
  | some k => k == "" || k == "your_api_key_here"

/-- The `st.error` text of `app.py` line 97. -/
def configErrorMsg : String :=
  "Please provide a Gemini API Key in the sidebar or `.env` file to proceed."

/-- The `st.warning` text of `app.py` line 99. -/
def emptyDestinationMsg : String := "Please enter a destination."

/-- The observable effects of one press of the generate button:
the session slot afterwards, how many times `generate_itinerary` was
invoked, and any transient `st.error`/`st.warning` text shown. -/
structure StepOut where
  state : SessionState
  backendCalls : Nat
  displayed : Option String

/-- The `if generate_btn:` handler, `app.py` lines 91-116: reset both
slot fields, then either show the configuration error, show the missing
destination warning, or call `generate_itinerary` once and store its
result (data on success, message otherwise). -/
def handleGenerate (prev : SessionState) (api_key : Option String)
    (destination : String) (days : Nat) (budget : String)
    (interests : List String) (notes : String)
    (outcome : BackendOutcome) : StepOut :=
  let s0 : SessionState := { itinerary_data := none, error_message := none }
  if apiKeyMissing api_key then
    { state := s0, backendCalls := 0, displayed := some configErrorMsg }
  else if destination = "" then
    { state := s0, backendCalls := 0, displayed := some emptyDestinationMsg }
  else
    let result := generate_itinerary (api_key.getD "") days destination budget
      interests notes outcome
    if result.status = "success" then
      { state := { itinerary_data := result.data, error_message := none },
        backendCalls := 1, displayed := none }
    else
      { state := { itinerary_data := none,
                   error_message := some (result.message.getD "An unknown error occurred.") },
        backendCalls := 1, displayed := none }

/-- `t` is a prefix of `s`, on character lists. -/
def isPrefixChars : List Char → List Char → Bool
  | [], _ => true
  | _ :: _, [] => false
  | a :: as, b :: bs => a == b && isPrefixChars as bs

/-- `t` occurs as a contiguous substring of `s`, on character lists. -/
def occursIn (t : List Char) : List Char → Bool
  | [] => isPrefixChars t []
  | c :: rest => isPrefixChars t (c :: rest) || occursIn t rest

theorem isPrefixChars_self_append (t b : List Char) :
    isPrefixChars t (t ++ b) = true := by
  induction t with
  | nil => rfl
  | cons a as ih => simp [isPrefixChars, ih]

theorem occursIn_of_isPrefixChars (t s : List Char)
    (h : isPrefixChars t s = true) : occursIn t s = true := by
  cases s with
  | nil => simpa [occursIn] using h
  | cons c rest => simp [occursIn, h]

theorem occursIn_append_left (t s a : List Char) (h : occursIn t s = true) :
    occursIn t (a ++ s) = true := by
  induction a with
  | nil => simpa using h
  | cons x xs ih => simp [occursIn, ih]

theorem occursIn_middle (t a b : List Char) :
    occursIn t (a ++ (t ++ b)) = true :=
  occursIn_append_left t (t ++ b) a
    (occursIn_of_isPrefixChars t (t ++ b) (isPrefixChars_self_append t b))

theorem occursIn_of_decomp (t s pre post : List Char)
    (h : s = pre ++ (t ++ post)) : occursIn t s = true :=
  h ▸ occursIn_middle t pre post

/-- A syntactically valid JSON payload that violates the itinerary schema:
the required `budget_tips` field is absent. -/
def jMissingTips : Json :=
  .obj [("destination", .str "Paris"),
        ("total_estimated_cost", .str "10000 INR"),
        ("itinerary", .arr [])]

/-- C1 counterexample: a valid-JSON payload missing `budget_tips` fails
schema validation, yet `generate_itinerary` returns it as a success
result rather than a validation failure. -/
theorem generate_itinerary_skips_validation_cex :
    validateTripItinerary jMissingTips = none ∧
    generate_itinerary "k" 3 "Paris" "Budget" [] ""
        (.returnsText (.ok jMissingTips))
      = { status := "success", data := some jMissingTips, message := none } :=
  ⟨rfl, rfl⟩

/-- C1 (amended): `generate_itinerary` performs no local structural
validation of the parsed JSON: every successfully parsed payload, even one
the itinerary schema rejects, is returned as a success result carrying
that payload; schema conformance is delegated to the backend. -/
theorem generate_itinerary_returns_unvalidated (key : String) (days : Nat)
    (destination budget notes : String) (interests : List String) (j : Json)
    (hbad : validateTripItinerary j = none) :
    generate_itinerary key days destination budget interests notes
        (.returnsText (.ok j))
      = { status := "success", data := some j, message := none } := rfl

/-- Witness for C1's amended theorem at the concrete malformed payload. -/
theorem generate_itinerary_returns_unvalidated_witness :
    generate_itinerary "k" 3 "Paris" "Budget" [] ""
        (.returnsText (.ok jMissingTips))
      = { status := "success", data := some jMissingTips, message := none } :=
  generate_itinerary_returns_unvalidated "k" 3 "Paris" "Budget" "" [] jMissingTips rfl

/-- C2 counterexample: the auth-rejection result and a generic failure
result carry the identical status tag `"error"`; the tag does not
distinguish the auth outcome. -/
theorem auth_not_tag_distinguished_cex :
    (generate_itinerary "k" 3 "Paris" "Budget" [] ""
        (.invalidArgument "bad key")).status
      = (generate_itinerary "k" 3 "Paris" "Budget" [] ""
          (.otherExc "boom")).status ∧
    (generate_itinerary "k" 3 "Paris" "Budget" [] ""
        (.invalidArgument "bad key")).status = "error" :=
  ⟨rfl, rfl⟩

/-- C2 (amended): every call returns exactly one of two tagged outcomes —
status `"success"` carrying data with no message, or status `"error"`
carrying a message with no data — and the auth rejection is the `"error"`
outcome with the fixed credential message, distinguished from other
failures only by that message text, not by its tag. -/
theorem generate_itinerary_outcomes (key : String) (days : Nat)
    (destination budget notes : String) (interests : List String)
    (o : BackendOutcome) :
    ((generate_itinerary key days destination budget interests notes o).status
        = "success" ∧
      (generate_itinerary key days destination budget interests notes o).message
        = none ∧
      (generate_itinerary key days destination budget interests notes o).data
        ≠ none
     ∨ (generate_itinerary key days destination budget interests notes o).status
        = "error" ∧
      (generate_itinerary key days destination budget interests notes o).data
        = none ∧
      (generate_itinerary key days destination budget interests notes o).message
        ≠ none) ∧
    (∀ m, generate_itinerary key days destination budget interests notes
        (.invalidArgument m)
      = { status := "error", data := none,
          message := some "Invalid API Key provided. Please check your Gemini API key." }) := by
  refine ⟨?_, fun m => rfl⟩
  cases o with
  | invalidArgument m => exact Or.inr ⟨rfl, rfl, by simp [generate_itinerary]⟩
  | otherExc m => exact Or.inr ⟨rfl, rfl, by simp [generate_itinerary]⟩
  | returnsText p =>
    cases p with
    | ok j => exact Or.inl ⟨rfl, rfl, by simp [generate_itinerary]⟩
    | error e => exact Or.inr ⟨rfl, rfl, by simp [generate_itinerary]⟩

/-- C6: a parse failure of the response text and any unexpected exception
from the backend call are both caught and returned as error results
carrying the underlying message; `generate_itinerary` is a total function
of the backend outcome, so no exception propagates to the caller. -/
theorem generation_failures_caught (key : String) (days : Nat)
    (destination budget notes : String) (interests : List String) :
    (∀ e, generate_itinerary key days destination budget interests notes
        (.returnsText (.error e))
      = { status := "error", data := none, message := some e }) ∧
    (∀ e, generate_itinerary key days destination budget interests notes
        (.otherExc e)
      = { status := "error", data := none, message := some e }) :=
  ⟨fun _ => rfl, fun _ => rfl⟩

/-- An itinerary whose first day has no activities while its second day
has one, at coordinate (3, 4). -/
def exFirstDayEmpty : TripItinerary :=
  { destination := "Paris", total_estimated_cost := "100 INR",
    budget_tips := [],
    itinerary :=
      [ { day := 1, theme := "Rest", activities := [] },
        { day := 2, theme := "Art",
          activities :=
            [ { name := "Louvre", time := "Morning", description := "d",
                cost_estimate := "Free", latitude := 3, longitude := 4 } ] } ] }

/-- C3 counterexample: this itinerary has one activity overall, so a map
view is produced, but day 1 (the first day) contributes no coordinates:
the focal point (3, 4) is the day-2 activity's coordinate, not a
coordinate of any first-day activity slot. -/
theorem map_view_focal_cex :
    (exFirstDayEmpty.itinerary.headD ⟨0, "", []⟩).activities = [] ∧
    (compute_map_view exFirstDayEmpty).map MapView.location = some (3, 4) :=
  ⟨rfl, rfl⟩

/-- C3 (amended): on an itinerary with zero activities `compute_map_view`
returns the empty signal, and whenever the first day's activity list is
nonempty the focal point is the first day's first activity's coordinate
(in general it is the head of the flattened coordinate list). -/
theorem compute_map_view_spec (it : TripItinerary) :
    (allCoords it.itinerary = [] → compute_map_view it = none) ∧
    (∀ d ds a rest, it.itinerary = d :: ds → d.activities = a :: rest →
      (compute_map_view it).map MapView.location
        = some (a.latitude, a.longitude)) := by
  constructor
  · intro h
    simp [compute_map_view, h]
  · intro d ds a rest hit hacts
    have hc : allCoords it.itinerary
        = (a.latitude, a.longitude)
          :: (rest.map (fun act => (act.latitude, act.longitude))
              ++ allCoords ds) := by
      simp [allCoords, hit, hacts]
    simp [compute_map_view, hc]

/-- An itinerary whose first day starts at coordinate (10, 20). -/
def exFirstDayFull : TripItinerary :=
  { destination := "Rome", total_estimated_cost := "200 INR",
    budget_tips := ["walk"],
    itinerary :=
      [ { day := 1, theme := "Ruins",
          activities :=
            [ { name := "Forum", time := "Morning", description := "d",
                cost_estimate := "Free", latitude := 10, longitude := 20 } ] } ] }

/-- An itinerary with no activities at all. -/
def exNoActivities : TripItinerary :=
  { destination := "Nowhere", total_estimated_cost := "0",
    budget_tips := [], itinerary := [] }

/-- Witness for C3's amended theorem: the empty itinerary yields the
empty signal, and the nonempty one is focused on its first activity. -/
theorem compute_map_view_spec_witness :
    compute_map_view exNoActivities = none ∧
    (compute_map_view exFirstDayFull).map MapView.location = some (10, 20) :=
  ⟨(compute_map_view_spec exNoActivities).1 rfl,
   (compute_map_view_spec exFirstDayFull).2
     { day := 1, theme := "Ruins",
       activities :=
         [ { name := "Forum", time := "Morning", description := "d",
             cost_estimate := "Free", latitude := 10, longitude := 20 } ] }
     []
     { name := "Forum", time := "Morning", description := "d",
       cost_estimate := "Free", latitude := 10, longitude := 20 }
     [] rfl rfl⟩

/-- C4: the palette has at least 16 named colors; for every day number
d ≥ 1 the assigned color is the palette entry at index (d - 1) mod
palette size; the assignment is deterministic (two evaluations at the
same day number agree); and the same indexing expression over any
16-color palette assigns day 17 the entry at index 0. -/
theorem day_color_assignment :
    16 ≤ colors.length ∧
    (∀ d : Int, 1 ≤ d →
      dayColor d = colors.getD ((d - 1) % (colors.length : Int)).toNat "") ∧
    (∀ d : Int, ∀ c₁ c₂ : String,
      dayColor d = c₁ → dayColor d = c₂ → c₁ = c₂) ∧
    (∀ p : List String, p.length = 16 → pickColor p 17 = p.getD 0 "") := by
  refine ⟨by decide, fun d _ => rfl, fun d c₁ c₂ h₁ h₂ => h₁ ▸ h₂, ?_⟩
  intro p hp
  simp [pickColor, hp]

/-- Witness for C4 at day 17: on the 19-color source palette day 17 gets
entry (17 - 1) mod 19 = 16, and on a 16-color palette day 17 gets entry 0. -/
theorem day_color_assignment_witness :
    dayColor 17 = colors.getD ((17 - 1) % (colors.length : Int)).toNat "" ∧
    pickColor (List.replicate 16 "red") 17 = "red" :=
  ⟨day_color_assignment.2.1 17 (by decide),
   (day_color_assignment.2.2.2 (List.replicate 16 "red") rfl).trans rfl⟩

/-- C5: after any press of the generate button the session slot never
holds both an itinerary and an error message, and the resulting slot is
independent of whatever the slot held before — the previous itinerary or
error is fully overwritten on every attempt, whatever the outcome. -/
theorem session_slot_exclusive (prev prev' : SessionState) (k : Option String)
    (dest : String) (days : Nat) (budget : String) (interests : List String)
    (notes : String) (o : BackendOutcome) :
    ((handleGenerate prev k dest days budget interests notes o).state.itinerary_data
        = none ∨
      (handleGenerate prev k dest days budget interests notes o).state.error_message
        = none) ∧
    handleGenerate prev k dest days budget interests notes o
      = handleGenerate prev' k dest days budget interests notes o := by
  refine ⟨?_, rfl⟩
  unfold handleGenerate
  dsimp only
  split
  · exact Or.inl rfl
  · split
    · exact Or.inl rfl
    · split
      · exact Or.inr rfl
      · exact Or.inl rfl

/-- C7: when the credential is absent, empty, or the known placeholder,
the handler short-circuits with the configuration error and
`generate_itinerary` is invoked zero times. -/
theorem config_error_short_circuit (prev : SessionState) (k : Option String)
    (dest : String) (days : Nat) (budget : String) (interests : List String)
    (notes : String) (o : BackendOutcome)
    (h : k = none ∨ k = some "" ∨ k = some "your_api_key_here") :
    (handleGenerate prev k dest days budget interests notes o).backendCalls = 0 ∧
    (handleGenerate prev k dest days budget interests notes o).displayed
      = some configErrorMsg := by
  have hk : apiKeyMissing k = true := by
    rcases h with h | h | h <;> subst h <;> rfl
  unfold handleGenerate
  rw [hk]
  exact ⟨rfl, rfl⟩

/-- Witness for C7 at the empty credential. -/
theorem config_error_short_circuit_witness :
    (handleGenerate ⟨none, none⟩ (some "") "Paris" 3 "Budget" [] ""
        (.otherExc "never reached")).backendCalls = 0 ∧
    (handleGenerate ⟨none, none⟩ (some "") "Paris" 3 "Budget" [] ""
        (.otherExc "never reached")).displayed = some configErrorMsg :=
  config_error_short_circuit ⟨none, none⟩ (some "") "Paris" 3 "Budget" [] ""
    (.otherExc "never reached") (Or.inr (Or.inl rfl))

/-- C10: when the destination text is empty, no call to
`generate_itinerary` is made and the session slot ends the invocation
holding neither an itinerary nor an error message, for every previous
slot content and every credential. -/
theorem empty_destination_clears_slot (prev : SessionState) (k : Option String)
    (days : Nat) (budget : String) (interests : List String) (notes : String)
    (o : BackendOutcome) :
    (handleGenerate prev k "" days budget interests notes o).backendCalls = 0 ∧
    (handleGenerate prev k "" days budget interests notes o).state.itinerary_data
      = none ∧
    (handleGenerate prev k "" days budget interests notes o).state.error_message
      = none := by
  unfold handleGenerate
  split
  · exact ⟨rfl, rfl, rfl⟩
  · exact ⟨rfl, rfl, rfl⟩

set_option maxRecDepth 100000 in
/-- C8 counterexample: with empty interests the prompt does not contain
the lowercase phrase "general sightseeing"; the source embeds the
capitalised literal "General sightseeing". -/
theorem prompt_placeholder_lowercase_cex :
    occursIn "general sightseeing".data
      (buildPrompt 3 "Paris, France" "Budget" [] "").data = false ∧
    occursIn "General sightseeing".data
      (buildPrompt 3 "Paris, France" "Budget" [] "").data = true := by
  constructor
  · decide
  · decide

/-- C8 (amended): for all valid inputs the prompt contains the
destination text, the decimal day count, and the budget tier text
verbatim; when the interest list is empty it embeds the capitalised
default placeholder "General sightseeing" rather than an empty list
rendering; and when the notes text is empty the notes clause contributes
the empty string, so it is omitted from the prompt entirely. -/
theorem prompt_contents (days : Nat) (destination budget notes : String)
    (interests : List String)
    (hd : 1 ≤ days) (hdest : destination ≠ "")
    (hb : budget = "Ultra-budget" ∨ budget = "Budget" ∨ budget = "Moderate") :
    occursIn destination.data
      (buildPrompt days destination budget interests notes).data = true ∧
    occursIn (toString days).data
      (buildPrompt days destination budget interests notes).data = true ∧
    occursIn budget.data
      (buildPrompt days destination budget interests notes).data = true ∧
    (interests = [] →
      occursIn "General sightseeing".data
        (buildPrompt days destination budget interests notes).data = true) ∧
    (notes = "" → notesStr notes = "") := by
  refine ⟨?_, ?_, ?_, ?_, fun h => by simp [notesStr, h]⟩
  · exact occursIn_of_decomp _ _
      ((promptPart1 ++ toString days ++ promptPart2).data)
      ((promptPart3 ++ budget ++ promptPart4 ++ interestsStr interests ++ "."
        ++ notesStr notes ++ promptPart5).data)
      (by simp [buildPrompt, String.data_append, List.append_assoc])
  · exact occursIn_of_decomp _ _
      (promptPart1.data)
      ((promptPart2 ++ destination ++ promptPart3 ++ budget ++ promptPart4
        ++ interestsStr interests ++ "." ++ notesStr notes ++ promptPart5).data)
      (by simp [buildPrompt, String.data_append, List.append_assoc])
  · exact occursIn_of_decomp _ _
      ((promptPart1 ++ toString days ++ promptPart2 ++ destination
        ++ promptPart3).data)
      ((promptPart4 ++ interestsStr interests ++ "." ++ notesStr notes
        ++ promptPart5).data)
      (by simp [buildPrompt, String.data_append, List.append_assoc])
  · intro hi
    exact occursIn_of_decomp _ _
      ((promptPart1 ++ toString days ++ promptPart2 ++ destination
        ++ promptPart3 ++ budget ++ promptPart4).data)
      (("." ++ notesStr notes ++ promptPart5).data)
      (by simp [buildPrompt, interestsStr, hi, String.data_append,
                List.append_assoc])

/-- Witness for C8's amended theorem at concrete valid inputs. -/
theorem prompt_contents_witness :
    occursIn "Paris, France".data
      (buildPrompt 3 "Paris, France" "Budget" [] "").data = true ∧
    occursIn "General sightseeing".data
      (buildPrompt 3 "Paris, France" "Budget" [] "").data = true ∧
    notesStr "" = "" :=
  ⟨(prompt_contents 3 "Paris, France" "Budget" "" []
      (by decide) (by decide) (Or.inr (Or.inl rfl))).1,
   (prompt_contents 3 "Paris, France" "Budget" "" []
      (by decide) (by decide) (Or.inr (Or.inl rfl))).2.2.2.1 rfl,
   (prompt_contents 3 "Paris, France" "Budget" "" []
      (by decide) (by decide) (Or.inr (Or.inl rfl))).2.2.2.2 rfl⟩

theorem decodeActivity_toJson (a : Activity) :
    decodeActivity a.toJson = some a := rfl

theorem mapOpt_map_eq_some {α : Type} (f : Json → Option α) (enc : α → Json)
    (h : ∀ a, f (enc a) = some a) (l : List α) :
    mapOpt f (l.map enc) = some l := by
  induction l with
  | nil => rfl
  | cons a as ih => simp [mapOpt, h, ih]

theorem decodeDailyPlan_toJson (p : DailyPlan) :
    decodeDailyPlan p.toJson = some p := by
  have hacts : mapOpt decodeActivity (p.activities.map Activity.toJson)
      = some p.activities :=
    mapOpt_map_eq_some decodeActivity Activity.toJson decodeActivity_toJson
      p.activities
  simp [decodeDailyPlan, DailyPlan.toJson, Json.getField, Json.asInt,
        Json.asStr, Json.asArr, List.lookup, hacts]

/-- C9: encoding a `TripItinerary` to its wire JSON form and validating
that JSON back through the schema definitions reproduces the identical
record — day order, activity order and every field value preserved. -/
theorem trip_itinerary_round_trip (t : TripItinerary) :
    validateTripItinerary t.toJson = some t := by
  have htips : mapOpt Json.asStr (t.budget_tips.map Json.str)
      = some t.budget_tips :=
    mapOpt_map_eq_some Json.asStr Json.str (fun _ => rfl) t.budget_tips
  have hplans : mapOpt decodeDailyPlan (t.itinerary.map DailyPlan.toJson)
      = some t.itinerary :=
    mapOpt_map_eq_some decodeDailyPlan DailyPlan.toJson decodeDailyPlan_toJson
      t.itinerary
  simp [validateTripItinerary, TripItinerary.toJson, Json.getField,
        Json.asStr, Json.asArr, List.lookup, htips, hplans]

end TravelPlanner
